import Mathlib

/-!
Shallow embedding of `src/visualization_app.py` (Retail Customer Churn
Analysis dashboard) and proofs about its aggregation and filtering logic.

The script loads a CSV of precomputed churn predictions into a pandas
DataFrame, computes overview metrics (`nunique`, `mean`, `sum`), a
churn-by-country groupby, a static feature-importance table, and a
threshold-filtered at-risk customer list that is sorted descending by
`churn_probability` and truncated to 500 rows for display.

Modelling decisions:
* A DataFrame is a finite ordered list of rows (`List CustomerRecord`);
  row order models the DataFrame's positional order.
* Floats are modelled as rationals (`ℚ`); the script does only
  comparisons, means and multiplications by 100 on them.
* `pandas.DataFrame.sort_values(..., ascending=False)` is modelled as a
  deterministic descending sort (`List.mergeSort` with a `≥` key test).
  pandas uses `kind='quicksort'` here, whose order among rows with equal
  keys is implementation-defined (the pandas documentation states that
  only 'mergesort'/'stable' are stable); every theorem below about the
  sorted output is invariant under the order of equal-key rows, so this
  modelling choice is harmless for them.
* `groupby('PrimaryCountry_Grouped_Original')` uses pandas' default
  `sort=True`, so group keys come out ascending lexicographically; the
  grouped means are then re-sorted descending by value.
* The `try/except` of `load_data` is modelled by making the outcome of
  the one effectful step (reading the CSV) an explicit input
  (`LoadOutcome`); `st.error` messages are modelled as returned values,
  and `st.stop()` as the `halted` session result.
-/

/-- One row of `customer_churn_predictions.csv`, with the columns the
script accesses as named fields (`Customer ID`, `is_churned`,
`predicted_churn`, `churn_probability`, `Recency`, `Frequency`,
`Monetary`, `Tenure`, `PrimaryCountry_Grouped_Original`) and any further
CSV columns kept in `extraCols`. -/
structure CustomerRecord where
  customerID : Nat
  is_churned : Nat
  predicted_churn : Nat
  churn_probability : ℚ
  recency : ℚ
  frequency : Nat
  monetary : ℚ
  tenure : ℚ
  primaryCountry : String
  extraCols : List (String × ℚ)
deriving DecidableEq, Repr

/-- The outcome of the one effectful step inside `load_data`'s `try`
block: `pd.read_csv` either returns a table, raises
`FileNotFoundError`, or raises some other exception. -/
inductive LoadOutcome where
  | ok : List CustomerRecord → LoadOutcome
  | fileNotFound : LoadOutcome
  | otherError : String → LoadOutcome
deriving DecidableEq, Repr

/-- The two distinct `st.error` reports of `load_data`: the
`FileNotFoundError` branch and the generic `except Exception` branch. -/
inductive ErrorKind where
  | sourceNotFound : ErrorKind
  | sourceUnreadable : String → ErrorKind
deriving DecidableEq, Repr

/-- The message text each `st.error` call displays (quotes around the
file name in the original message are omitted). -/
def errorText : ErrorKind → String
  | .sourceNotFound =>
      "Error: customer_churn_predictions.csv not found. Please ensure 02_feature_engineering.ipynb and 04_dashboard_insights.ipynb were run."
  | .sourceUnreadable e =>
      "Error loading customer churn predictions data: " ++ e

/-- `load_data()`: returns the DataFrame on success; on
`FileNotFoundError` reports an error and returns `pd.DataFrame()` (the
empty DataFrame); on any other exception reports a different error and
also returns the empty DataFrame. It never propagates an exception. -/
def load_data : LoadOutcome → List CustomerRecord × Option ErrorKind
  | .ok df => (df, none)
  | .fileNotFound => ([], some .sourceNotFound)
  | .otherError e => ([], some (.sourceUnreadable e))

/-- The static feature-importance table: `pd.DataFrame` built from the
literal lists `["Recency", "Frequency", "Monetary", "Tenure"]` and
`[0.40, 0.30, 0.20, 0.10]`. It takes no dataset argument because the
script computes it from literals only. -/
def feature_importance_df : List (String × ℚ) :=
  [("Recency", 0.40), ("Frequency", 0.30), ("Monetary", 0.20), ("Tenure", 0.10)]

/-- `df_features['Customer ID'].nunique()`: the number of distinct
`Customer ID` values. -/
def total_customers (df : List CustomerRecord) : Nat :=
  ((df.map (·.customerID)).dedup).length

/-- `df_features['is_churned'].mean() * 100`. -/
def actual_churn_rate (df : List CustomerRecord) : ℚ :=
  ((df.map (·.is_churned)).sum : ℚ) / (df.length : ℚ) * 100

/-- `df_features['predicted_churn'].mean() * 100`. -/
def predicted_churn_rate (df : List CustomerRecord) : ℚ :=
  ((df.map (·.predicted_churn)).sum : ℚ) / (df.length : ℚ) * 100

/-- `df_features['predicted_churn'].sum()`. -/
def predicted_churners (df : List CustomerRecord) : Nat :=
  (df.map (·.predicted_churn)).sum

/-- The four overview metrics the dashboard shows in its metric row. -/
structure OverviewMetrics where
  totalCustomers : Nat
  actualChurnRate : ℚ
  predictedChurnRate : ℚ
  predictedChurnerCount : Nat
deriving DecidableEq, Repr

/-- The overview-metrics block (the four `st.metric` values). -/
def overviewMetrics (df : List CustomerRecord) : OverviewMetrics :=
  ⟨total_customers df, actual_churn_rate df, predicted_churn_rate df,
    predicted_churners df⟩

/-- The rows of `df` whose `PrimaryCountry_Grouped_Original` equals `c`
(one group of the `groupby`). -/
def group_rows (df : List CustomerRecord) (c : String) : List CustomerRecord :=
  df.filter (fun r => decide (r.primaryCountry = c))

/-- `mean` of `is_churned` over one country group. -/
def group_mean_is_churned (df : List CustomerRecord) (c : String) : ℚ :=
  (((group_rows df c).map (·.is_churned)).sum : ℚ) / ((group_rows df c).length : ℚ)

/-- The group keys of `groupby('PrimaryCountry_Grouped_Original')`:
the distinct country values, ascending (pandas groups with
`sort=True` by default). -/
def groupby_keys (df : List CustomerRecord) : List String :=
  ((df.map (·.primaryCountry)).dedup).mergeSort (fun a b => decide (a ≤ b))

/-- `churn_by_country`: group by country, take `mean` of `is_churned`
per group, `sort_values(ascending=False)`, then multiply the rate column
by 100. -/
def churn_by_country (df : List CustomerRecord) : List (String × ℚ) :=
  (((groupby_keys df).map (fun c => (c, group_mean_is_churned df c))).mergeSort
      (fun a b => decide (b.2 ≤ a.2))).map (fun p => (p.1, p.2 * 100))

/-- `at_risk_customers_filtered`: keep rows with
`churn_probability >= churn_threshold`, then
`sort_values(by='churn_probability', ascending=False)`. -/
def at_risk_customers_filtered (df : List CustomerRecord) (churn_threshold : ℚ) :
    List CustomerRecord :=
  (df.filter (fun r => decide (churn_threshold ≤ r.churn_probability))).mergeSort
    (fun a b => decide (b.churn_probability ≤ a.churn_probability))

/-- The `N` of the `st.info` line `Showing N customers ...`:
`len(at_risk_customers_filtered)`, taken before any truncation. -/
def showing_count (df : List CustomerRecord) (t : ℚ) : Nat :=
  (at_risk_customers_filtered df t).length

/-- A displayed cell value (numeric or string column). -/
inductive Value where
  | num : ℚ → Value
  | str : String → Value
deriving DecidableEq, Repr

/-- `display_cols`: the columns selected for the at-risk table. -/
def display_cols : List String :=
  ["Customer ID", "churn_probability", "predicted_churn",
   "Recency", "Frequency", "Monetary", "Tenure",
   "PrimaryCountry_Grouped_Original"]

/-- Column access `r[c]` on one row: the named columns of the CSV that
the script uses, plus lookup among the remaining columns. -/
def colValue (r : CustomerRecord) (c : String) : Option Value :=
  if c = "Customer ID" then some (.num (r.customerID : ℚ))
  else if c = "is_churned" then some (.num (r.is_churned : ℚ))
  else if c = "predicted_churn" then some (.num (r.predicted_churn : ℚ))
  else if c = "churn_probability" then some (.num r.churn_probability)
  else if c = "Recency" then some (.num r.recency)
  else if c = "Frequency" then some (.num (r.frequency : ℚ))
  else if c = "Monetary" then some (.num r.monetary)
  else if c = "Tenure" then some (.num r.tenure)
  else if c = "PrimaryCountry_Grouped_Original" then some (.str r.primaryCountry)
  else (r.extraCols.lookup c).map .num

/-- The table passed to `st.dataframe` when the filtered list is
non-empty: `at_risk_customers_filtered[display_cols].head(500)`;
`none` models the `else` branch that prints a message instead. -/
def at_risk_display (df : List CustomerRecord) (t : ℚ) :
    Option (List (List (Option Value))) :=
  if at_risk_customers_filtered df t = [] then none
  else some (((at_risk_customers_filtered df t).map
      (fun r => display_cols.map (colValue r))).take 500)

/-- Everything the script renders after a successful load. -/
structure RenderedPage where
  metrics : OverviewMetrics
  importance : List (String × ℚ)
  byCountry : List (String × ℚ)
  showing : Nat
  atRiskTable : Option (List (List (Option Value)))

/-- A dashboard session either stops (`st.stop()`) or renders the page. -/
inductive SessionResult where
  | halted : SessionResult
  | rendered : RenderedPage → SessionResult

/-- The top-level script flow: `df_features = load_data()`;
`if df_features.empty: st.stop()`; otherwise compute and render all
aggregates with the slider threshold `t`. -/
def runSession (o : LoadOutcome) (t : ℚ) : SessionResult :=
  if ((load_data o).1).isEmpty then .halted
  else .rendered ⟨overviewMetrics (load_data o).1, feature_importance_df,
    churn_by_country (load_data o).1, showing_count (load_data o).1 t,
    at_risk_display (load_data o).1 t⟩

/-- The feature-importance table a session renders, if it renders. -/
def importanceOf : SessionResult → Option (List (String × ℚ))
  | .halted => none
  | .rendered p => some p.importance

/-! ### Sample data used by witnesses and counterexamples -/

/-- A sample row: UK customer with churn probability 0.9. -/
def rowA : CustomerRecord := ⟨1, 1, 1, 9/10, 12, 3, 250, 400, "UK", [("CLV", 5)]⟩

/-- A sample row whose churn probability is exactly 1.0. -/
def rowOne : CustomerRecord := ⟨2, 0, 1, 1, 5, 7, 100, 200, "France", []⟩

/-- Builds a sample row with the given id, churn flag and country. -/
def mkRow (id ch : Nat) (c : String) : CustomerRecord :=
  ⟨id, ch, ch, (ch : ℚ) / 2 + 1 / 4, 10, 2, 50, 100, c, []⟩

/-- Scenario B of the spec: 5 UK rows of which 2 churned, 3 France rows
all churned. -/
def scenarioB : List CustomerRecord :=
  [mkRow 1 0 "UK", mkRow 2 1 "UK", mkRow 3 0 "UK", mkRow 4 1 "UK", mkRow 5 0 "UK",
   mkRow 6 1 "France", mkRow 7 1 "France", mkRow 8 1 "France"]

/-! ### Helper lemmas -/

/-- The sorted at-risk list is a permutation of the threshold filter. -/
theorem at_risk_perm_filter (df : List CustomerRecord) (t : ℚ) :
    (at_risk_customers_filtered df t).Perm
      (df.filter (fun r => decide (t ≤ r.churn_probability))) :=
  List.mergeSort_perm _ _

/-- A threshold of `0` keeps every row of a dataset whose probabilities
are nonnegative. -/
theorem filter_zero_eq_self (df : List CustomerRecord)
    (h0 : ∀ r ∈ df, 0 ≤ r.churn_probability) :
    df.filter (fun r => decide ((0 : ℚ) ≤ r.churn_probability)) = df :=
  List.filter_eq_self.mpr fun r hr => decide_eq_true (h0 r hr)

/-! ### Claim theorems -/

/-- Claim C1: for every dataset and threshold, `at_risk_customers_filtered`
keeps exactly the rows with `churn_probability ≥ t` (inclusive boundary);
at threshold 0 every row of a range-respecting dataset qualifies, and at
threshold 1 exactly the rows with probability 1 qualify. -/
theorem c1_filter_inclusive_boundary (df : List CustomerRecord) (t : ℚ)
    (h0 : ∀ r ∈ df, 0 ≤ r.churn_probability)
    (h1 : ∀ r ∈ df, r.churn_probability ≤ 1) :
    (at_risk_customers_filtered df t).Perm
      (df.filter (fun r => decide (t ≤ r.churn_probability))) ∧
    (at_risk_customers_filtered df 0).Perm df ∧
    (at_risk_customers_filtered df 1).Perm
      (df.filter (fun r => decide (r.churn_probability = 1))) := by
  refine ⟨at_risk_perm_filter df t, ?_, ?_⟩
  · have hf := filter_zero_eq_self df h0
    simpa [hf] using at_risk_perm_filter df 0
  · have hf : df.filter (fun r => decide ((1 : ℚ) ≤ r.churn_probability))
        = df.filter (fun r => decide (r.churn_probability = 1)) := by
      refine List.filter_congr fun r hr => ?_
      have hle := h1 r hr
      rw [decide_eq_decide]
      exact ⟨fun h => le_antisymm hle h, fun h => ge_of_eq h⟩
    simpa [hf] using at_risk_perm_filter df 1

/-- Witness for C1 at a concrete dataset and threshold. -/
theorem c1_witness :
    ((∀ r ∈ [rowA], 0 ≤ r.churn_probability) ∧
      (∀ r ∈ [rowA], r.churn_probability ≤ 1)) ∧
    ((at_risk_customers_filtered [rowA] (1/2)).Perm
      (List.filter (fun r => decide ((1:ℚ)/2 ≤ r.churn_probability)) [rowA]) ∧
    (at_risk_customers_filtered [rowA] 0).Perm [rowA] ∧
    (at_risk_customers_filtered [rowA] 1).Perm
      (List.filter (fun r => decide (r.churn_probability = 1)) [rowA])) :=
  ⟨⟨by norm_num [rowA], by norm_num [rowA]⟩,
    c1_filter_inclusive_boundary [rowA] (1/2)
      (by norm_num [rowA]) (by norm_num [rowA])⟩

/-- Claim C5: the filtered count is monotonically non-increasing in the
threshold. -/
theorem c5_count_monotone (df : List CustomerRecord) (t1 t2 : ℚ) (h : t1 < t2) :
    (at_risk_customers_filtered df t2).length ≤
      (at_risk_customers_filtered df t1).length := by
  rw [(at_risk_perm_filter df t1).length_eq, (at_risk_perm_filter df t2).length_eq,
    ← List.countP_eq_length_filter, ← List.countP_eq_length_filter]
  refine List.countP_mono_left fun r _ hp => ?_
  exact decide_eq_true (le_trans h.le (of_decide_eq_true hp))

/-- Witness for C5 at concrete thresholds 0 < 1. -/
theorem c5_witness :
    (0 : ℚ) < 1 ∧
    (at_risk_customers_filtered [rowA] 1).length ≤
      (at_risk_customers_filtered [rowA] 0).length :=
  ⟨by norm_num, c5_count_monotone [rowA] 0 1 (by norm_num)⟩

/-- Counterexample to claim C6 as stated: on the one-row dataset whose
probability is exactly 1.0, the out-of-range threshold 2.0 yields the
empty list, not the threshold-1.0 behaviour (which keeps the row), so
the engine does not clamp thresholds above 1.0. -/
theorem c6_counterexample :
    (1 : ℚ) < 2 ∧
    at_risk_customers_filtered [rowOne] 2 = [] ∧
    at_risk_customers_filtered [rowOne] 1 = [rowOne] ∧
    at_risk_customers_filtered [rowOne] 2 ≠ at_risk_customers_filtered [rowOne] 1 := by
  have h2 : at_risk_customers_filtered [rowOne] 2 = [] := by
    norm_num [at_risk_customers_filtered, rowOne, List.mergeSort]
  have h1 : at_risk_customers_filtered [rowOne] 1 = [rowOne] := by
    norm_num [at_risk_customers_filtered, rowOne, List.mergeSort]
  refine ⟨by norm_num, h2, h1, ?_⟩
  rw [h2, h1]
  simp

/-- Claim C6 as amended: the engine performs no clamping or rejection at
all; out-of-range thresholds are prevented upstream by the slider bounds
(`min_value=0.0`, `max_value=1.0`). On data satisfying the documented
probability range invariant, a threshold below 0.0 does coincide with
threshold 0.0, but a threshold above 1.0 yields the empty list rather
than the threshold-1.0 behaviour. -/
theorem c6_no_clamping (df : List CustomerRecord) (t1 t2 : ℚ)
    (hlo : t1 < 0) (hhi : 1 < t2)
    (h0 : ∀ r ∈ df, 0 ≤ r.churn_probability)
    (h1 : ∀ r ∈ df, r.churn_probability ≤ 1) :
    at_risk_customers_filtered df t1 = at_risk_customers_filtered df 0 ∧
    at_risk_customers_filtered df t2 = [] := by
  constructor
  · have ha : df.filter (fun r => decide (t1 ≤ r.churn_probability)) = df :=
      List.filter_eq_self.mpr fun r hr =>
        decide_eq_true (le_trans hlo.le (h0 r hr))
    unfold at_risk_customers_filtered
    rw [ha, filter_zero_eq_self df h0]
  · have hb : df.filter (fun r => decide (t2 ≤ r.churn_probability)) = [] :=
      List.filter_eq_nil_iff.mpr fun r hr hp =>
        absurd (le_trans (of_decide_eq_true hp) (h1 r hr)) (not_le.mpr hhi)
    unfold at_risk_customers_filtered
    rw [hb, List.mergeSort_nil]

/-- Witness for the amended C6 at thresholds -1 and 2. -/
theorem c6_witness :
    (((-1 : ℚ) < 0) ∧ ((1 : ℚ) < 2) ∧
      (∀ r ∈ [rowOne], 0 ≤ r.churn_probability) ∧
      (∀ r ∈ [rowOne], r.churn_probability ≤ 1)) ∧
    (at_risk_customers_filtered [rowOne] (-1) = at_risk_customers_filtered [rowOne] 0 ∧
      at_risk_customers_filtered [rowOne] 2 = []) :=
  ⟨⟨by norm_num, by norm_num, by norm_num [rowOne], by norm_num [rowOne]⟩,
    c6_no_clamping [rowOne] (-1) 2 (by norm_num) (by norm_num)
      (by norm_num [rowOne]) (by norm_num [rowOne])⟩

/-- Claim C2: the count reported by the `st.info` line is the full
filtered count before truncation, the displayed table has at most 500
rows, and with 600 matching rows the reported count is 600 while the
display holds exactly 500 rows. -/
theorem c2_count_before_truncation (df : List CustomerRecord) (t : ℚ) :
    showing_count df t
      = (df.filter (fun r => decide (t ≤ r.churn_probability))).length ∧
    (∀ tbl, at_risk_display df t = some tbl → tbl.length ≤ 500) ∧
    ((df.filter (fun r => decide (t ≤ r.churn_probability))).length = 600 →
      showing_count df t = 600 ∧
      ∃ tbl, at_risk_display df t = some tbl ∧ tbl.length = 500) := by
  have hlen : showing_count df t
      = (df.filter (fun r => decide (t ≤ r.churn_probability))).length :=
    (at_risk_perm_filter df t).length_eq
  refine ⟨hlen, ?_, ?_⟩
  · intro tbl htbl
    rw [at_risk_display] at htbl
    by_cases hne : at_risk_customers_filtered df t = []
    · rw [if_pos hne] at htbl
      exact absurd htbl (by simp)
    · rw [if_neg hne] at htbl
      rw [← Option.some.inj htbl, List.length_take]
      exact min_le_left _ _
  · intro h600
    have har : (at_risk_customers_filtered df t).length = 600 := by
      rw [show (at_risk_customers_filtered df t).length = showing_count df t from rfl,
        hlen, h600]
    have hne : at_risk_customers_filtered df t ≠ [] := by
      intro h
      rw [h] at har
      simp at har
    refine ⟨by rw [hlen, h600], ((at_risk_customers_filtered df t).map
        (fun r => display_cols.map (colValue r))).take 500,
      by rw [at_risk_display, if_neg hne], ?_⟩
    rw [List.length_take, List.length_map, har]
    norm_num

/-- Witness for C2 on a dataset of 600 identical qualifying rows. -/
theorem c2_witness :
    ((List.replicate 600 rowA).filter
        (fun r => decide ((1:ℚ)/2 ≤ r.churn_probability))).length = 600 ∧
    showing_count (List.replicate 600 rowA) (1/2) = 600 ∧
    ∃ tbl, at_risk_display (List.replicate 600 rowA) (1/2) = some tbl ∧
      tbl.length = 500 := by
  have h : ((List.replicate 600 rowA).filter
      (fun r => decide ((1:ℚ)/2 ≤ r.churn_probability))).length = 600 := by
    rw [List.filter_replicate, if_pos (by norm_num [rowA])]
    exact List.length_replicate 600 rowA
  have hc := (c2_count_before_truncation (List.replicate 600 rowA) (1/2)).2.2 h
  exact ⟨h, hc.1, hc.2⟩

/-- Claim C7: `load_data` never propagates an exception; a missing file
yields the empty dataset with the not-found report, any other read fault
yields the empty dataset with a distinct unreadable report, and whenever
the loaded dataset is empty the session halts before computing any
aggregate (a page is only ever rendered from a non-empty dataset). -/
theorem c7_load_never_raises (o : LoadOutcome) (t : ℚ) :
    load_data .fileNotFound = ([], some .sourceNotFound) ∧
    (∀ e, load_data (.otherError e) = ([], some (.sourceUnreadable e)) ∧
      ErrorKind.sourceUnreadable e ≠ ErrorKind.sourceNotFound) ∧
    ((load_data o).1 = [] → runSession o t = .halted) ∧
    (∀ p, runSession o t = .rendered p → (load_data o).1 ≠ []) := by
  refine ⟨rfl, fun e => ⟨rfl, fun h => ErrorKind.noConfusion h⟩, ?_, ?_⟩
  · intro h
    rw [runSession, if_pos]
    rw [h]
    rfl
  · intro p hp hnil
    rw [runSession, if_pos (by rw [hnil]; rfl)] at hp
    exact SessionResult.noConfusion hp

/-- Witness for C7: the missing-file outcome halts the session. -/
theorem c7_witness :
    (load_data LoadOutcome.fileNotFound).1 = [] ∧
    runSession LoadOutcome.fileNotFound (1/2) = SessionResult.halted :=
  ⟨rfl, (c7_load_never_raises LoadOutcome.fileNotFound (1/2)).2.2.1 rfl⟩

/-- Claim C9: the feature-importance table is the fixed four-row table
Recency 0.40, Frequency 0.30, Monetary 0.20, Tenure 0.10, in that order,
already sorted descending by importance; `head(10)` leaves it unchanged,
and every rendered session shows exactly this table whatever the loaded
dataset or threshold (it is never recomputed from data). -/
theorem c9_feature_importance_static (o : LoadOutcome) (t : ℚ) :
    feature_importance_df
      = [("Recency", 0.40), ("Frequency", 0.30), ("Monetary", 0.20),
        ("Tenure", 0.10)] ∧
    feature_importance_df.take 10 = feature_importance_df ∧
    List.Sorted (fun a b : String × ℚ => b.2 ≤ a.2) feature_importance_df ∧
    (importanceOf (runSession o t) = none ∨
      importanceOf (runSession o t) = some feature_importance_df) := by
  refine ⟨rfl, rfl, ?_, ?_⟩
  · norm_num [feature_importance_df, List.sorted_cons]
  · by_cases h : ((load_data o).1).isEmpty
    · left
      rw [runSession, if_pos h]
      rfl
    · right
      rw [runSession, if_neg h]
      rfl

/-- Claim C10: when the filtered list is non-empty the displayed table
is the projection of the (truncated) filtered rows onto exactly the
eight `display_cols` in their fixed order, every displayed row has
exactly those eight cells and comes from a filtered row, and the
filtered rows themselves are unmodified full records of the dataset. -/
theorem c10_display_projection (df : List CustomerRecord) (t : ℚ)
    (hne : at_risk_customers_filtered df t ≠ []) :
    at_risk_display df t
      = some (((at_risk_customers_filtered df t).map
          (fun r => display_cols.map (colValue r))).take 500) ∧
    display_cols = ["Customer ID", "churn_probability", "predicted_churn",
      "Recency", "Frequency", "Monetary", "Tenure",
      "PrimaryCountry_Grouped_Original"] ∧
    (∀ tbl, at_risk_display df t = some tbl → ∀ row ∈ tbl,
      row.length = 8 ∧
      ∃ r ∈ at_risk_customers_filtered df t,
        row = display_cols.map (colValue r)) ∧
    (∀ r ∈ at_risk_customers_filtered df t, r ∈ df) := by
  refine ⟨by rw [at_risk_display, if_neg hne], rfl, ?_, ?_⟩
  · intro tbl htbl row hrow
    rw [at_risk_display, if_neg hne] at htbl
    rw [← Option.some.inj htbl] at hrow
    have hmem := List.mem_of_mem_take hrow
    obtain ⟨r, hr, hrrow⟩ := List.mem_map.mp hmem
    exact ⟨by rw [← hrrow, List.length_map]; rfl, r, hr, hrrow.symm⟩
  · intro r hr
    exact List.mem_of_mem_filter (List.mem_mergeSort.mp hr)

/-- Witness for C10 at a concrete dataset and threshold 0. -/
theorem c10_witness :
    at_risk_customers_filtered [rowA] 0 ≠ [] ∧
    at_risk_display [rowA] 0
      = some (((at_risk_customers_filtered [rowA] 0).map
          (fun r => display_cols.map (colValue r))).take 500) ∧
    (∀ r ∈ at_risk_customers_filtered [rowA] 0, r ∈ [rowA]) := by
  have hne : at_risk_customers_filtered [rowA] 0 ≠ [] := by
    norm_num [at_risk_customers_filtered, rowA, List.mergeSort]
  have hc := c10_display_projection [rowA] 0 hne
  exact ⟨hne, hc.1, hc.2.2.2⟩

/-- `mergeSort` on a two-element list compares the elements once. -/
theorem mergeSort_pair {α : Type} (a b : α) (le : α → α → Bool) :
    List.mergeSort [a, b] le = if le a b then [a, b] else [b, a] := by
  rcases h : le a b with hf | ht <;> simp [List.mergeSort, List.merge, h]

/-- The scaled mean of a list of values in [0, 1] lies in [0, 100]. -/
theorem mean_scaled_bounds (xs : List ℚ) (hne : xs ≠ [])
    (h0 : ∀ x ∈ xs, 0 ≤ x) (hb : ∀ x ∈ xs, x ≤ 1) :
    0 ≤ xs.sum / (xs.length : ℚ) * 100 ∧
    xs.sum / (xs.length : ℚ) * 100 ≤ 100 := by
  have hpos : (0 : ℚ) < (xs.length : ℚ) := by
    have h := List.length_pos.mpr hne
    exact_mod_cast h
  have hsum : xs.sum ≤ (xs.length : ℚ) := by
    simpa using List.sum_le_card_nsmul xs 1 hb
  have hs0 : 0 ≤ xs.sum := List.sum_nonneg h0
  constructor
  · exact mul_nonneg (div_nonneg hs0 hpos.le) (by norm_num)
  · have hdiv : xs.sum / (xs.length : ℚ) ≤ 1 := (div_le_one hpos).mpr hsum
    calc xs.sum / (xs.length : ℚ) * 100 ≤ 1 * 100 :=
          mul_le_mul_of_nonneg_right hdiv (by norm_num)
    _ = 100 := by norm_num

/-- Evaluation of the groupby keys on scenario B. -/
theorem groupby_keys_scenarioB : groupby_keys scenarioB = ["France", "UK"] := by
  have hmap : scenarioB.map (·.primaryCountry)
      = ["UK", "UK", "UK", "UK", "UK", "France", "France", "France"] := rfl
  have hded : (["UK", "UK", "UK", "UK", "UK", "France", "France", "France"] :
      List String).dedup = ["UK", "France"] := by decide
  have h2 : decide (("UK" : String) ≤ "France") = false := by
    refine decide_eq_false fun h => ?_
    have hl := String.le_iff_toList_le.mp h
    revert hl
    decide
  rw [groupby_keys, hmap, hded, mergeSort_pair, h2]
  simp

/-- Evaluation of `churn_by_country` on scenario B. -/
theorem churn_by_country_scenarioB :
    churn_by_country scenarioB = [("France", 100), ("UK", 40)] := by
  have hF : group_mean_is_churned scenarioB "France" = 1 := by
    have hn1 : decide (("UK" : String) = "France") = false := by decide
    norm_num [group_mean_is_churned, group_rows, scenarioB, mkRow, hn1]
  have hU : group_mean_is_churned scenarioB "UK" = 2/5 := by
    have hn2 : decide (("France" : String) = "UK") = false := by decide
    norm_num [group_mean_is_churned, group_rows, scenarioB, mkRow, hn2]
  rw [churn_by_country, groupby_keys_scenarioB, List.map_cons, List.map_cons,
    List.map_nil, hF, hU, mergeSort_pair]
  norm_num

/-- Claim C4: `churn_by_country` yields exactly one pair per distinct
country of the dataset, each rate being 100 times the group's mean of
`is_churned` and lying in [0, 100], sorted non-increasing by rate; on
scenario B it yields France 100.0 then UK 40.0. -/
theorem c4_churn_by_country (df : List CustomerRecord)
    (hb : ∀ r ∈ df, r.is_churned ≤ 1) :
    ((churn_by_country df).map Prod.fst).Perm ((df.map (·.primaryCountry)).dedup) ∧
    (∀ p ∈ churn_by_country df,
      p.2 = 100 * group_mean_is_churned df p.1 ∧ 0 ≤ p.2 ∧ p.2 ≤ 100) ∧
    List.Sorted (fun a b : String × ℚ => b.2 ≤ a.2) (churn_by_country df) ∧
    churn_by_country scenarioB = [("France", 100), ("UK", 40)] := by
  refine ⟨?_, ?_, ?_, churn_by_country_scenarioB⟩
  · have h1 : (churn_by_country df).map Prod.fst
        = (((groupby_keys df).map
            (fun c => (c, group_mean_is_churned df c))).mergeSort
              (fun a b => decide (b.2 ≤ a.2))).map Prod.fst := by
      rw [churn_by_country, List.map_map]
      rfl
    rw [h1]
    refine ((List.mergeSort_perm _ _).map Prod.fst).trans ?_
    rw [List.map_map]
    rw [show (Prod.fst ∘ fun c => (c, group_mean_is_churned df c)) = id from rfl,
      List.map_id]
    exact List.mergeSort_perm _ _
  · intro p hp
    rw [churn_by_country] at hp
    obtain ⟨q, hq, rfl⟩ := List.mem_map.mp hp
    obtain ⟨c, hc, rfl⟩ := List.mem_map.mp (List.mem_mergeSort.mp hq)
    have hcmem : c ∈ df.map (·.primaryCountry) :=
      List.mem_dedup.mp (List.mem_mergeSort.mp hc)
    obtain ⟨r, hr, hrc⟩ := List.mem_map.mp hcmem
    have hgr : r ∈ group_rows df c :=
      List.mem_filter.mpr ⟨hr, decide_eq_true hrc⟩
    have hxne : (group_rows df c).map (fun r => (r.is_churned : ℚ)) ≠ [] := by
      simp only [ne_eq, List.map_eq_nil_iff]
      exact List.ne_nil_of_mem hgr
    have h0x : ∀ x ∈ (group_rows df c).map (fun r => (r.is_churned : ℚ)), 0 ≤ x := by
      intro x hx
      obtain ⟨s, hs, rfl⟩ := List.mem_map.mp hx
      positivity
    have hbx : ∀ x ∈ (group_rows df c).map (fun r => (r.is_churned : ℚ)), x ≤ 1 := by
      intro x hx
      obtain ⟨s, hs, rfl⟩ := List.mem_map.mp hx
      exact_mod_cast hb s (List.mem_of_mem_filter hs)
    have hbounds := mean_scaled_bounds _ hxne h0x hbx
    rw [List.length_map] at hbounds
    have hmean : group_mean_is_churned df c
        = ((group_rows df c).map (fun r => (r.is_churned : ℚ))).sum
          / ((group_rows df c).length : ℚ) := rfl
    refine ⟨by ring, ?_, ?_⟩
    · show 0 ≤ group_mean_is_churned df c * 100
      rw [hmean]
      exact hbounds.1
    · show group_mean_is_churned df c * 100 ≤ 100
      rw [hmean]
      exact hbounds.2
  · have htrans : ∀ a b c : String × ℚ,
        decide (b.2 ≤ a.2) = true → decide (c.2 ≤ b.2) = true →
        decide (c.2 ≤ a.2) = true := fun a b c h1 h2 =>
      decide_eq_true (le_trans (of_decide_eq_true h2) (of_decide_eq_true h1))
    have htotal : ∀ a b : String × ℚ,
        (decide (b.2 ≤ a.2) || decide (a.2 ≤ b.2)) = true := by
      intro a b
      rcases le_total b.2 a.2 with h | h
      · simp [decide_eq_true h]
      · simp [decide_eq_true h]
    have hpw := List.sorted_mergeSort htrans htotal
      ((groupby_keys df).map (fun c => (c, group_mean_is_churned df c)))
    rw [churn_by_country]
    refine List.Pairwise.map _ ?_ hpw
    intro a b hab
    show ((b.1, b.2 * 100) : String × ℚ).2 ≤ ((a.1, a.2 * 100) : String × ℚ).2
    exact mul_le_mul_of_nonneg_right (of_decide_eq_true hab) (by norm_num)

/-- Witness for C4 on the scenario-B dataset. -/
theorem c4_witness :
    (∀ r ∈ scenarioB, r.is_churned ≤ 1) ∧
    churn_by_country scenarioB = [("France", 100), ("UK", 40)] := by
  have hb : ∀ r ∈ scenarioB, r.is_churned ≤ 1 := by decide
  exact ⟨hb, (c4_churn_by_country scenarioB hb).2.2.2⟩

/-- Claim C8: the overview metrics are the distinct-customer count, the
scaled means of `is_churned` and `predicted_churn` (each within
[0, 100] on a non-empty 0/1-valued dataset), and the sum of
`predicted_churn`. -/
theorem c8_overview_metrics (df : List CustomerRecord) (hne : df ≠ [])
    (hc : ∀ r ∈ df, r.is_churned ≤ 1) (hp : ∀ r ∈ df, r.predicted_churn ≤ 1) :
    (overviewMetrics df).totalCustomers = (df.map (·.customerID)).toFinset.card ∧
    (overviewMetrics df).actualChurnRate
      = 100 * (((df.map (·.is_churned)).sum : ℚ) / (df.length : ℚ)) ∧
    (0 ≤ (overviewMetrics df).actualChurnRate ∧
      (overviewMetrics df).actualChurnRate ≤ 100) ∧
    (overviewMetrics df).predictedChurnRate
      = 100 * (((df.map (·.predicted_churn)).sum : ℚ) / (df.length : ℚ)) ∧
    (0 ≤ (overviewMetrics df).predictedChurnRate ∧
      (overviewMetrics df).predictedChurnRate ≤ 100) ∧
    (overviewMetrics df).predictedChurnerCount
      = (df.map (·.predicted_churn)).sum := by
  have hxc : df.map (fun r => (r.is_churned : ℚ)) ≠ [] := by
    simp only [ne_eq, List.map_eq_nil_iff]
    exact hne
  have hxp : df.map (fun r => (r.predicted_churn : ℚ)) ≠ [] := by
    simp only [ne_eq, List.map_eq_nil_iff]
    exact hne
  have h0c : ∀ x ∈ df.map (fun r => (r.is_churned : ℚ)), 0 ≤ x := by
    intro x hx
    obtain ⟨r, hr, rfl⟩ := List.mem_map.mp hx
    positivity
  have h0p : ∀ x ∈ df.map (fun r => (r.predicted_churn : ℚ)), 0 ≤ x := by
    intro x hx
    obtain ⟨r, hr, rfl⟩ := List.mem_map.mp hx
    positivity
  have hbc : ∀ x ∈ df.map (fun r => (r.is_churned : ℚ)), x ≤ 1 := by
    intro x hx
    obtain ⟨r, hr, rfl⟩ := List.mem_map.mp hx
    exact_mod_cast hc r hr
  have hbp : ∀ x ∈ df.map (fun r => (r.predicted_churn : ℚ)), x ≤ 1 := by
    intro x hx
    obtain ⟨r, hr, rfl⟩ := List.mem_map.mp hx
    exact_mod_cast hp r hr
  have h1 := mean_scaled_bounds _ hxc h0c hbc
  have h2 := mean_scaled_bounds _ hxp h0p hbp
  rw [List.length_map] at h1 h2
  have e1 : (overviewMetrics df).actualChurnRate
      = 100 * (((df.map (·.is_churned)).sum : ℚ) / (df.length : ℚ)) := by
    show actual_churn_rate df = _
    rw [actual_churn_rate]
    ring
  have e2 : (overviewMetrics df).predictedChurnRate
      = 100 * (((df.map (·.predicted_churn)).sum : ℚ) / (df.length : ℚ)) := by
    show predicted_churn_rate df = _
    rw [predicted_churn_rate]
    ring
  exact ⟨(List.card_toFinset _).symm, e1, ⟨h1.1, h1.2⟩, e2, ⟨h2.1, h2.2⟩, rfl⟩

/-- Witness for C8 at a concrete one-row dataset. -/
theorem c8_witness :
    (([rowA] : List CustomerRecord) ≠ [] ∧
      (∀ r ∈ [rowA], r.is_churned ≤ 1) ∧
      (∀ r ∈ [rowA], r.predicted_churn ≤ 1)) ∧
    (overviewMetrics [rowA]).totalCustomers
      = ([rowA].map (·.customerID)).toFinset.card ∧
    (0 ≤ (overviewMetrics [rowA]).actualChurnRate ∧
      (overviewMetrics [rowA]).actualChurnRate ≤ 100) := by
  have h := c8_overview_metrics [rowA] (List.cons_ne_nil _ _)
    (by decide) (by decide)
  exact ⟨⟨List.cons_ne_nil _ _, by decide, by decide⟩, h.1, h.2.2.1⟩
